import Mathlib

/-!
Shallow embedding of the pipeline-coordination core of the repository
(src/model/event.py, src/model/queue_event.py, src/model/pipeline.py,
src/tasks.py).

Modelling conventions:
* Python values that may be None are modelled as Option.
* asyncio is single-threaded cooperative scheduling.  An awaiting operation
  either completes immediately (the awaited Event is already set / the queue
  already has an item) or suspends the calling coroutine; we model this with
  the BlockingResult type: done s is immediate completion with post-state s,
  blocked means the coroutine suspends at that await and makes no further
  progress until another task changes the state it is waiting on.
* Exceptions are modelled with Except PyError; a raised-and-logged exception
  inside a worker body is reported in the worker result.
* Python attribute lookups that are statically guaranteed to fail (the class
  body defines no such method anywhere in the repository) are embedded as
  lookup functions returning Except PyError Empty: there is provably no value
  to call.
-/

/-- Python exception classes that the embedded code can raise. -/
inductive PyError where
  | valueError (msg : String)
  | attributeError (msg : String)
deriving DecidableEq, Repr

/-- Result of running a coroutine step: it either completes with a value or
suspends at an await whose condition does not hold yet. -/
inductive BlockingResult (σ : Type) where
  | done : σ → BlockingResult σ
  | blocked : BlockingResult σ
deriving DecidableEq, Repr

/-- State of model/event.py EventData after dataclass construction and
post-init: data is None, event_set is an unset asyncio.Event, and
event_processed is a set asyncio.Event (the comment in post-init: initially
the data has been processed, there is no data). -/
structure EventData (α : Type) where
  data : Option α
  event_set : Bool
  event_processed : Bool
deriving DecidableEq, Repr

/-- A freshly constructed EventData (post-init has run). -/
def EventData.init {α : Type} : EventData α :=
  { data := none, event_set := false, event_processed := true }

/-- EventData.set: awaits event_processed.wait() — this completes immediately
iff event_processed is set, otherwise the caller suspends; then stores the
data, clears event_processed and sets event_set. -/
def EventData.set {α : Type} (e : EventData α) (d : Option α) :
    BlockingResult (EventData α) :=
  if e.event_processed then
    .done { data := d, event_set := true, event_processed := false }
  else
    .blocked

/-- EventData.get: awaits event_set.wait() — completes immediately iff
event_set is set, otherwise suspends; then clears event_set and returns the
data. -/
def EventData.get {α : Type} (e : EventData α) :
    BlockingResult (Option α × EventData α) :=
  if e.event_set then
    .done (e.data, { e with event_set := false })
  else
    .blocked

/-- EventData.get_nowait: returns None when event_set is not set, otherwise
clears event_set and returns the data. -/
def EventData.get_nowait {α : Type} (e : EventData α) :
    Option α × EventData α :=
  if e.event_set then
    (e.data, { e with event_set := false })
  else
    (none, e)

/-- EventData.task_done: sets event_processed. -/
def EventData.task_done {α : Type} (e : EventData α) : EventData α :=
  { e with event_processed := true }

/-- Attribute lookup of a method named reset on an EventData instance.
model/event.py defines exactly the methods post-init, set, get, get_nowait
and task_done on the EventData dataclass, and no other file of the
repository adds a reset attribute, so this lookup raises AttributeError on
every instance; there is no value to return (Empty). -/
def EventData.reset_lookup : Except PyError Empty :=
  .error (.attributeError "EventData object has no attribute reset")

/-- State of model/queue_event.py QueuedEventData: an asyncio.Queue of items
(items themselves may be None — the cancellation sentinel — hence Option α),
the queue bound (0 means unlimited), the closed flag and the batch-complete
asyncio.Event.  The internal unfinished-task counter of asyncio.Queue is not
modelled: it is observable only through Queue.join, which QueuedEventData
never exposes or calls. -/
structure QueuedEventData (α : Type) where
  queue : List (Option α)
  maxsize : Nat
  closed : Bool
  batch_complete : Bool
deriving DecidableEq, Repr

/-- QueuedEventData(maxsize): empty queue, not closed, batch event unset. -/
def QueuedEventData.init {α : Type} (maxsize : Nat) : QueuedEventData α :=
  { queue := [], maxsize := maxsize, closed := false, batch_complete := false }

/-- QueuedEventData.put: on a closed queue, logs a warning and returns
without adding; otherwise awaits queue.put, which suspends iff the queue is
bounded and full, and appends the item at the tail. -/
def QueuedEventData.put {α : Type} (q : QueuedEventData α) (d : Option α) :
    BlockingResult (QueuedEventData α) :=
  if q.closed then
    .done q
  else if q.maxsize ≠ 0 ∧ q.maxsize ≤ q.queue.length then
    .blocked
  else
    .done { q with queue := q.queue ++ [d] }

/-- QueuedEventData.mark_batch_complete: sets the batch-complete event. -/
def QueuedEventData.mark_batch_complete {α : Type} (q : QueuedEventData α) :
    QueuedEventData α :=
  { q with batch_complete := true }

/-- QueuedEventData.wait_for_batch_completion: awaits the batch-complete
event — completes immediately iff it is set — then clears it for the next
batch. -/
def QueuedEventData.wait_for_batch_completion {α : Type}
    (q : QueuedEventData α) : BlockingResult (QueuedEventData α) :=
  if q.batch_complete then
    .done { q with batch_complete := false }
  else
    .blocked

/-- QueuedEventData.get: on a closed empty queue logs a warning and returns
None immediately; otherwise awaits queue.get, which suspends iff the queue
is empty and otherwise removes and returns the head item. -/
def QueuedEventData.get {α : Type} (q : QueuedEventData α) :
    BlockingResult (Option α × QueuedEventData α) :=
  if q.closed && q.queue.isEmpty then
    .done (none, q)
  else
    match q.queue with
    | [] => .blocked
    | d :: rest => .done (d, { q with queue := rest })

/-- QueuedEventData.get_nowait: removes and returns the head item, or
returns None (swallowing QueueEmpty) when the queue is empty. -/
def QueuedEventData.get_nowait {α : Type} (q : QueuedEventData α) :
    Option α × QueuedEventData α :=
  match q.queue with
  | [] => (none, q)
  | d :: rest => (d, { q with queue := rest })

/-- QueuedEventData.task_done: forwards to asyncio.Queue.task_done, whose
only effect is on the unmodelled join counter (see QueuedEventData). -/
def QueuedEventData.task_done {α : Type} (q : QueuedEventData α) :
    QueuedEventData α :=
  q

/-- QueuedEventData.close: marks the queue closed. -/
def QueuedEventData.close {α : Type} (q : QueuedEventData α) :
    QueuedEventData α :=
  { q with closed := true }

/-- The drain loop inside QueuedEventData.reset: while the queue is not
empty, pop the head with get_nowait and mark it done. -/
def QueuedEventData.drainList {α : Type} : List (Option α) → List (Option α)
  | [] => []
  | _ :: rest => QueuedEventData.drainList rest

/-- QueuedEventData.reset: drains all pending items, reopens the queue and
clears the batch-complete event. -/
def QueuedEventData.reset {α : Type} (q : QueuedEventData α) :
    QueuedEventData α :=
  { q with
    queue := QueuedEventData.drainList q.queue
    closed := false
    batch_complete := false }

/-- QueuedEventData.is_batch_complete: non-suspending peek at the
batch-complete event. -/
def QueuedEventData.is_batch_complete {α : Type} (q : QueuedEventData α) :
    Bool :=
  q.batch_complete

/-!
model/pipeline.py — PipelineController.  The audio payload type is kept
abstract (Python Any); text is String.  The asyncio.Event fields
cancel-requested and completed are Bools.
-/

/-- State of a PipelineController after init returned successfully. -/
structure PipelineController (A : Type) where
  _cancel_requested : Bool
  _audio_event : EventData A
  _input_event : EventData String
  _speech_queue : QueuedEventData String
  _completed : Bool
  _initial_audio_data : Option A
  _initial_text_input : Option String
deriving DecidableEq, Repr

/-- PipelineController init: raises ValueError when neither or both of
audio_data and text_input are given (Python tests with "is None");
otherwise constructs fresh primitives and stores the initial input. -/
def PipelineController.__init__ {A : Type} (audio_data : Option A)
    (text_input : Option String) : Except PyError (PipelineController A) :=
  if audio_data.isNone && text_input.isNone then
    .error (.valueError "Either audio_data or text_input must be provided")
  else if audio_data.isSome && text_input.isSome then
    .error (.valueError "Only one of audio_data or text_input can be provided")
  else
    .ok
      { _cancel_requested := false
        _audio_event := EventData.init
        _input_event := EventData.init
        _speech_queue := QueuedEventData.init 0
        _completed := false
        _initial_audio_data := audio_data
        _initial_text_input := text_input }

/-- PipelineController aenter: seeds the mailbox matching the stored
initial input (audio first, elif text) via EventData.set and returns self. -/
def PipelineController.__aenter__ {A : Type} (c : PipelineController A) :
    BlockingResult (PipelineController A) :=
  match c._initial_audio_data with
  | some a =>
    match c._audio_event.set (some a) with
    | .done e => .done { c with _audio_event := e }
    | .blocked => .blocked
  | none =>
    match c._initial_text_input with
    | some t =>
      match c._input_event.set (some t) with
      | .done e => .done { c with _input_event := e }
      | .blocked => .blocked
    | none => .done c

/-- PipelineController.complete: sets the completed event. -/
def PipelineController.complete {A : Type} (c : PipelineController A) :
    PipelineController A :=
  { c with _completed := true }

/-- PipelineController.is_completed. -/
def PipelineController.is_completed {A : Type} (c : PipelineController A) :
    Bool :=
  c._completed

/-- PipelineController.is_cancellation_requested. -/
def PipelineController.is_cancellation_requested {A : Type}
    (c : PipelineController A) : Bool :=
  c._cancel_requested

/-- Result of one scheduling tick after request_cancellation: the controller
state, plus for each of the three tasks spawned with asyncio.create_task
whether it ran to completion (true) or suspended at its first await
(false, sentinel not delivered in this tick). -/
structure CancelTick (A : Type) where
  ctlr : PipelineController A
  audio_sentinel_delivered : Bool
  input_sentinel_delivered : Bool
  queue_sentinel_delivered : Bool
deriving DecidableEq, Repr

/-- PipelineController.request_cancellation: sets the cancellation flag,
then spawns three tasks: audio_event.set(None), input_event.set(None) and
speech_queue.put(None).  The three touch disjoint parts of the state, so a
scheduling tick runs each against the flag-set state; a set that finds
event_processed clear suspends at event_processed.wait() and delivers
nothing. -/
def PipelineController.request_cancellation {A : Type}
    (c : PipelineController A) : CancelTick A :=
  let c0 := { c with _cancel_requested := true }
  let audioStep :=
    match c0._audio_event.set none with
    | .done e => (e, true)
    | .blocked => (c0._audio_event, false)
  let inputStep :=
    match c0._input_event.set none with
    | .done e => (e, true)
    | .blocked => (c0._input_event, false)
  let queueStep :=
    match c0._speech_queue.put none with
    | .done q => (q, true)
    | .blocked => (c0._speech_queue, false)
  { ctlr :=
      { c0 with
        _audio_event := audioStep.1
        _input_event := inputStep.1
        _speech_queue := queueStep.1 }
    audio_sentinel_delivered := audioStep.2
    input_sentinel_delivered := inputStep.2
    queue_sentinel_delivered := queueStep.2 }

/-- PipelineController.cleanup: the try body runs speech_queue.reset(),
then input_event.reset() — but model/event.py defines no reset method on
EventData, so this attribute access raises AttributeError; the remaining
statements of the try body (audio_event.reset() and the conditional
completed.set()) are skipped, and the except-star Exception arm logs the
error and returns (the error is reported, not rethrown).  The returned pair
is the post state and the logged error, if any. -/
def PipelineController.cleanup {A : Type} (c : PipelineController A) :
    PipelineController A × Option PyError :=
  let c1 := { c with _speech_queue := c._speech_queue.reset }
  match EventData.reset_lookup with
  | .error e => (c1, some e)
  | .ok x => x.elim

/-- PipelineController.wait_for_completion: awaits the completed event —
completes immediately iff it is set. -/
def PipelineController.wait_for_completion {A : Type}
    (c : PipelineController A) : BlockingResult Unit :=
  if c._completed then .done () else .blocked

/-- PipelineController.get_audio_data: forwards to audio_event.get. -/
def PipelineController.get_audio_data {A : Type} (c : PipelineController A) :
    BlockingResult (Option A × PipelineController A) :=
  match c._audio_event.get with
  | .done (d, e) => .done (d, { c with _audio_event := e })
  | .blocked => .blocked

/-- PipelineController.set_input_text: forwards to input_event.set. -/
def PipelineController.set_input_text {A : Type} (c : PipelineController A)
    (text : String) : BlockingResult (PipelineController A) :=
  match c._input_event.set (some text) with
  | .done e => .done { c with _input_event := e }
  | .blocked => .blocked

/-- PipelineController.get_input_text: forwards to input_event.get. -/
def PipelineController.get_input_text {A : Type} (c : PipelineController A) :
    BlockingResult (Option String × PipelineController A) :=
  match c._input_event.get with
  | .done (d, e) => .done (d, { c with _input_event := e })
  | .blocked => .blocked

/-- PipelineController.add_to_speech_queue: forwards to speech_queue.put. -/
def PipelineController.add_to_speech_queue {A : Type}
    (c : PipelineController A) (text : String) :
    BlockingResult (PipelineController A) :=
  match c._speech_queue.put (some text) with
  | .done q => .done { c with _speech_queue := q }
  | .blocked => .blocked

/-- PipelineController.get_from_speech_queue: forwards to speech_queue.get. -/
def PipelineController.get_from_speech_queue {A : Type}
    (c : PipelineController A) :
    BlockingResult (Option String × PipelineController A) :=
  match c._speech_queue.get with
  | .done (d, q) => .done (d, { c with _speech_queue := q })
  | .blocked => .blocked

/-- PipelineController.speech_queue_task_done. -/
def PipelineController.speech_queue_task_done {A : Type}
    (c : PipelineController A) : PipelineController A :=
  { c with _speech_queue := c._speech_queue.task_done }

/-- PipelineController.mark_speech_batch_complete. -/
def PipelineController.mark_speech_batch_complete {A : Type}
    (c : PipelineController A) : PipelineController A :=
  { c with _speech_queue := c._speech_queue.mark_batch_complete }

/-- PipelineController.speech_batch_is_complete. -/
def PipelineController.speech_batch_is_complete {A : Type}
    (c : PipelineController A) : Bool :=
  c._speech_queue.is_batch_complete

/-- Attribute lookup of wait_for_speech_batch_completion on a
PipelineController instance.  model/pipeline.py lines 195-197 define this
method only inside a comment, and no other file of the repository adds the
attribute, so the lookup raises AttributeError on every instance; there is
no value to return (Empty). -/
def PipelineController.wait_for_speech_batch_completion_lookup :
    Except PyError Empty :=
  .error (.attributeError
    "PipelineController object has no attribute wait_for_speech_batch_completion")

/-!
tasks.py — stage workers.  External collaborators are parameters: the
transcriber is a function from the received buffer and sample rate to an
optional transcript; the chat agent is the sequence of fragments its async
generator yields, together with a flag saying whether the sequence then
raised instead of ending normally; the voice records the fragments spoken.
Each worker is modelled as its effect on the controller state for one
pipeline run; the final keep-alive polling loops (while not completed and
not cancellation requested: sleep) read but never write the state and are
modelled as no-ops.
-/

/-- The validity test in transcribe_worker: a transcript is skipped when it
is None or no character of it satisfies char.isalnum.  Python's
str.isalnum is Unicode-aware (true for Japanese kana and kanji, fullwidth
letters, accented letters, and so on — this repository transcribes both en
and ja), so the per-character classifier is not fixed to an ASCII table:
it is a parameter, standing for the interpreter's Unicode isalnum. -/
def transcriptValid (isalnum : Char → Bool) : Option String → Bool
  | none => false
  | some s => s.data.any isalnum

/-- transcribe_worker: awaits get_audio_data, runs
transcriber.transcribe_buffer on the received buffer, and either completes
the pipeline and exits (invalid transcript) or pushes the transcript into
the text mailbox via set_input_text (guarded by the truthiness test
if result) and idles. -/
def transcribe_worker {A : Type} (c : PipelineController A)
    (isalnum : Char → Bool)
    (transcriber : Option A → Int → Option String) (sample_rate : Int) :
    BlockingResult (PipelineController A) :=
  match c.get_audio_data with
  | .blocked => .blocked
  | .done (audio_array, c1) =>
    let result := transcriber audio_array sample_rate
    if transcriptValid isalnum result then
      match result with
      | some s =>
        if s = "" then
          .done c1
        else
          match c1.set_input_text s with
          | .done c2 => .done c2
          | .blocked => .blocked
      | none => .done c1
    else
      .done c1.complete

/-- The async-for body of chat_worker: forward each yielded fragment into
the speech queue with add_to_speech_queue, in order. -/
def chat_put_fragments {A : Type} :
    PipelineController A → List String → BlockingResult (PipelineController A)
  | c, [] => .done c
  | c, f :: rest =>
    match c.add_to_speech_queue f with
    | .done c1 => chat_put_fragments c1 rest
    | .blocked => .blocked

/-- chat_worker: awaits get_input_text, iterates the chat fragment sequence
forwarding every fragment to the speech queue; response_received records
whether at least one fragment arrived.  If the sequence ends normally, the
batch is marked complete iff response_received; if it ends by raising, the
except-star Exception arm logs the error and again marks the batch complete
iff response_received.  fragments is the list of fragments the agent yielded
before ending or raising; errored says which of the two happened. -/
def chat_worker {A : Type} (c : PipelineController A)
    (fragments : List String) (errored : Bool) :
    BlockingResult (PipelineController A) :=
  match c.get_input_text with
  | .blocked => .blocked
  | .done (_message, c1) =>
    match chat_put_fragments c1 fragments with
    | .blocked => .blocked
    | .done c2 =>
      let response_received := !fragments.isEmpty
      if errored then
        if response_received then .done c2.mark_speech_batch_complete
        else .done c2
      else
        if response_received then .done c2.mark_speech_batch_complete
        else .done c2

/-- Outcome of one run of speech_worker: the controller state, the
fragments fed to the voice collaborator in order, and the exception caught
and logged by the worker boundary, if any. -/
structure SpeechWorkerResult (A : Type) where
  ctlr : PipelineController A
  spoken : List String
  logged_error : Option PyError
deriving DecidableEq, Repr

/-- speech_worker: awaits the first item from the speech queue, marks it
done and speaks it when it is not None; then evaluates
ctlr.wait_for_speech_batch_completion to build the batch-completion task —
an attribute lookup that raises AttributeError because the method is
commented out in model/pipeline.py, so the except-star Exception arm at the
worker boundary logs the error and the worker returns without reaching the
drain loops or ctlr.complete(). -/
def speech_worker {A : Type} (c : PipelineController A) :
    BlockingResult (SpeechWorkerResult A) :=
  match c.get_from_speech_queue with
  | .blocked => .blocked
  | .done (speech, c1) =>
    let c2 := c1.speech_queue_task_done
    let spoken := match speech with
      | some s => [s]
      | none => []
    match PipelineController.wait_for_speech_batch_completion_lookup with
    | .error e => .done { ctlr := c2, spoken := spoken, logged_error := some e }
    | .ok x => x.elim

/-!
Helper lemmas and concrete pipeline states used by the verification.
-/

/-- The drain loop of reset empties any queue. -/
theorem QueuedEventData.drainList_eq_nil {α : Type} (l : List (Option α)) :
    QueuedEventData.drainList l = [] := by
  induction l with
  | nil => rfl
  | cons x rest ih => simpa [QueuedEventData.drainList] using ih

/-- The controller state returned by a successful init call. -/
def freshCtlr {A : Type} (audio : Option A) (text : Option String) :
    PipelineController A :=
  { _cancel_requested := false
    _audio_event := EventData.init
    _input_event := EventData.init
    _speech_queue := QueuedEventData.init 0
    _completed := false
    _initial_audio_data := audio
    _initial_text_input := text }

/-- Controller built from text input hello, before entering the context.
Audio payloads are sample buffers, modelled as lists of integers. -/
def createdTextCtlr : PipelineController (List Int) :=
  freshCtlr none (some "hello")

/-- createdTextCtlr after aenter seeded the text mailbox. -/
def seededTextCtlr : PipelineController (List Int) :=
  { createdTextCtlr with
    _input_event :=
      { data := some "hello", event_set := true, event_processed := false } }

/-- seededTextCtlr after the respond worker consumed the seeded text with
get_input_text: readiness cleared, processed still clear because no caller
in the repository ever invokes task_done on the text or audio mailbox. -/
def consumedTextCtlr : PipelineController (List Int) :=
  { seededTextCtlr with
    _input_event :=
      { data := some "hello", event_set := false, event_processed := false } }

/-- C2: the claim says a second set before any get succeeds without
blocking and overwrites (last-write-wins).  Counterexample on a fresh
mailbox: set v1 succeeds, but the second set suspends at
event_processed.wait() because the first value has not been marked
processed — there is no overwrite and the call does block. -/
theorem mailbox_overwrite_counterexample :
    (EventData.init (α := String)).set (some "v1") =
      .done { data := some "v1", event_set := true, event_processed := false } ∧
    EventData.set
      { data := some "v1", event_set := true, event_processed := false }
      (some "v2") = (.blocked : BlockingResult (EventData String)) :=
  ⟨rfl, rfl⟩

/-- C2 (amended): set(v1) on a mailbox whose previous value is marked
processed stores v1 and marks it ready; a second set(v2) issued before
task_done suspends instead of overwriting; once task_done marks the value
processed, the pending second set completes and stores v2.  set never
fails, but it does apply back-pressure. -/
theorem mailbox_set_blocks_until_task_done {α : Type} (e : EventData α)
    (v1 v2 : Option α) (h : e.event_processed = true) :
    e.set v1 = .done { data := v1, event_set := true, event_processed := false } ∧
    EventData.set
      { data := v1, event_set := true, event_processed := false } v2 = .blocked ∧
    (EventData.task_done
      { data := v1, event_set := true, event_processed := false }).set v2 =
      .done { data := v2, event_set := true, event_processed := false } := by
  refine ⟨?_, rfl, rfl⟩
  simp [EventData.set, h]

/-- Witness for the amended C2 theorem at a fresh Nat mailbox. -/
theorem mailbox_set_blocks_until_task_done_witness :
    (EventData.init (α := Nat)).event_processed = true ∧
    ((EventData.init (α := Nat)).set (some 1) =
      .done { data := some 1, event_set := true, event_processed := false } ∧
    EventData.set
      { data := some 1, event_set := true, event_processed := false }
      (some 2) = (.blocked : BlockingResult (EventData Nat)) ∧
    (EventData.task_done
      { data := some 1, event_set := true, event_processed := false }).set
      (some 2) =
      .done { data := some 2, event_set := true, event_processed := false }) :=
  ⟨rfl, mailbox_set_blocks_until_task_done EventData.init (some 1) (some 2) rfl⟩

/-- C3: reset on the BatchQueue does restore the freshly-constructed
observable state (first conjunct is proved for every queue), but the
Mailbox half of the claim fails: EventData defines no reset method at all,
so every reset call on a mailbox raises AttributeError instead of clearing
value and readiness. -/
theorem reset_missing_on_mailbox_fresh_on_queue :
    EventData.reset_lookup =
      .error (.attributeError "EventData object has no attribute reset") ∧
    ∀ (α : Type) (q : QueuedEventData α),
      q.reset = QueuedEventData.init q.maxsize := by
  refine ⟨rfl, fun α q => ?_⟩
  simp [QueuedEventData.reset, QueuedEventData.init,
    QueuedEventData.drainList_eq_nil]

/-- C9: constructing a PipelineController with neither input raises
ValueError, with both inputs raises ValueError, and with exactly one input
succeeds; on context entry only the mailbox matching the given input is
seeded (the other stays freshly constructed). -/
theorem pipeline_init_input_validation {A : Type} (a : A) (t : String) :
    PipelineController.__init__ (A := A) none none =
      .error (.valueError "Either audio_data or text_input must be provided") ∧
    PipelineController.__init__ (some a) (some t) =
      .error (.valueError "Only one of audio_data or text_input can be provided") ∧
    PipelineController.__init__ (some a) none = .ok (freshCtlr (some a) none) ∧
    (freshCtlr (some a) none).__aenter__ =
      .done { freshCtlr (some a) none with
        _audio_event :=
          { data := some a, event_set := true, event_processed := false } } ∧
    PipelineController.__init__ (A := A) none (some t) =
      .ok (freshCtlr none (some t)) ∧
    (freshCtlr (A := A) none (some t)).__aenter__ =
      .done { freshCtlr (A := A) none (some t) with
        _input_event :=
          { data := some t, event_set := true, event_processed := false } } :=
  ⟨rfl, rfl, rfl, rfl, rfl, rfl⟩

/-- C4: the claim says cleanup resets all three primitives even when one
reset raises, and always leaves the completed flag set.  On the code,
cleanup always raises at input_event.reset() (EventData has no reset
method), the except-star arm only logs it, and the statements that would
reset the audio mailbox and set the completed flag are skipped, so a waiter
on wait_for_completion stays blocked after cleanup returns. -/
theorem cleanup_aborts_before_completion :
    seededTextCtlr.cleanup.2 =
      some (.attributeError "EventData object has no attribute reset") ∧
    seededTextCtlr.cleanup.1._completed = false ∧
    seededTextCtlr.cleanup.1.wait_for_completion = .blocked :=
  ⟨rfl, rfl, rfl⟩

/-- C5: the claim says request_cancellation pushes a nil sentinel into all
three primitives so a blocked get wakes within one scheduling tick.  On the
reachable state in which the seeded text value has been consumed by get
(and, as everywhere in the repository, task_done was never called on the
mailbox), the spawned input_event.set(None) suspends at
event_processed.wait(): the sentinel is not delivered in the tick, the
mailbox still holds the old value, and a task blocked in get on that
mailbox stays blocked. -/
theorem cancellation_sentinel_not_delivered :
    PipelineController.__init__ (A := List Int) none (some "hello") =
      .ok createdTextCtlr ∧
    createdTextCtlr.__aenter__ = .done seededTextCtlr ∧
    seededTextCtlr.get_input_text = .done (some "hello", consumedTextCtlr) ∧
    consumedTextCtlr._input_event.get = .blocked ∧
    consumedTextCtlr.request_cancellation.ctlr._cancel_requested = true ∧
    consumedTextCtlr.request_cancellation.input_sentinel_delivered = false ∧
    consumedTextCtlr.request_cancellation.ctlr._input_event.get = .blocked ∧
    consumedTextCtlr.request_cancellation.ctlr._input_event.data =
      some "hello" :=
  ⟨rfl, rfl, rfl, rfl, rfl, rfl, rfl, rfl⟩

/-- The controller state after the respond worker consumed the seeded text
and forwarded the fragments Hi and then a space-there into the speech
queue, then marked the batch complete. -/
def chatDoneCtlr : PipelineController (List Int) :=
  { consumedTextCtlr with
    _speech_queue :=
      { queue := [some "Hi", some " there"], maxsize := 0, closed := false,
              batch_complete := true } }

/-- The outcome of speech_worker on chatDoneCtlr: only the first fragment
is spoken, the AttributeError from the missing
wait_for_speech_batch_completion method is logged, and the worker exits
with the second fragment still queued and the pipeline not completed. -/
def speakAborted : SpeechWorkerResult (List Int) :=
  { ctlr :=
      { chatDoneCtlr with
        _speech_queue :=
          { queue := [some " there"], maxsize := 0, closed := false,
            batch_complete := true } }
    spoken := ["Hi"]
    logged_error := some (.attributeError
      "PipelineController object has no attribute wait_for_speech_batch_completion") }

/-- C1: the claim says the speak worker receives Hi then the second
fragment, observes batch completion, and calls complete().  On the code,
after speaking the first fragment the worker evaluates
ctlr.wait_for_speech_batch_completion — commented out in model/pipeline.py
— so an AttributeError is raised and logged at the worker boundary: only
Hi is spoken, the second fragment stays queued, and is_completed() remains
false. -/
theorem speak_scenario_aborts_attribute_error :
    chat_worker seededTextCtlr ["Hi", " there"] false = .done chatDoneCtlr ∧
    speech_worker chatDoneCtlr = .done speakAborted ∧
    speakAborted.spoken = ["Hi"] ∧
    speakAborted.ctlr._speech_queue.queue = [some " there"] ∧
    speakAborted.ctlr.is_completed = false :=
  ⟨rfl, rfl, rfl, rfl, rfl⟩

/-- On an open, unbounded speech queue, forwarding the fragment list
appends it in order at the queue tail without suspending. -/
theorem chat_put_fragments_eq {A : Type} (c : PipelineController A)
    (frags : List String) (h1 : c._speech_queue.closed = false)
    (h2 : c._speech_queue.maxsize = 0) :
    chat_put_fragments c frags =
      .done { c with _speech_queue :=
        { c._speech_queue with
          queue := c._speech_queue.queue ++ frags.map some } } := by
  induction frags generalizing c with
  | nil => simp [chat_put_fragments]
  | cons f rest ih =>
    have hput : c.add_to_speech_queue f =
        .done { c with _speech_queue :=
          { c._speech_queue with
            queue := c._speech_queue.queue ++ [some f] } } := by
      simp [PipelineController.add_to_speech_queue, QueuedEventData.put, h1, h2]
    have hrec := ih
      { c with _speech_queue :=
        { c._speech_queue with queue := c._speech_queue.queue ++ [some f] } }
      (by simpa using h1) (by simpa using h2)
    simp only [chat_put_fragments, hput]
    rw [hrec]
    simp

/-- C6: when the respond worker's chat fragment sequence raises after
yielding at least one fragment, the batch is still marked complete and
every forwarded fragment stays queued, in order, for the speak worker;
when the sequence raises before yielding any fragment, the worker leaves
the queue untouched and never marks the batch complete. -/
theorem chat_error_after_fragments_marks_batch {A : Type}
    (c : PipelineController A) (fragments : List String)
    (h1 : c._input_event.event_set = true)
    (h2 : c._speech_queue.closed = false)
    (h3 : c._speech_queue.maxsize = 0) :
    (fragments ≠ [] →
      chat_worker c fragments true =
        .done { c with
          _input_event := { c._input_event with event_set := false }
          _speech_queue :=
            { c._speech_queue with
              queue := c._speech_queue.queue ++ fragments.map some
              batch_complete := true } }) ∧
    chat_worker c [] true =
      .done { c with
        _input_event := { c._input_event with event_set := false } } := by
  have hget : c.get_input_text =
      .done (c._input_event.data,
        { c with _input_event := { c._input_event with event_set := false } }) := by
    simp [PipelineController.get_input_text, EventData.get, h1]
  constructor
  · intro hne
    have hfrag := chat_put_fragments_eq
      { c with _input_event := { c._input_event with event_set := false } }
      fragments (by simpa using h2) (by simpa using h3)
    cases fragments with
    | nil => exact absurd rfl hne
    | cons f rest =>
      simp only [chat_worker, hget, hfrag]
      simp [PipelineController.mark_speech_batch_complete,
        QueuedEventData.mark_batch_complete]
  · have hfrag := chat_put_fragments_eq
      { c with _input_event := { c._input_event with event_set := false } }
      [] (by simpa using h2) (by simpa using h3)
    simp only [chat_worker, hget, hfrag]
    simp

/-- Witness for C6 at the seeded text controller with one fragment. -/
theorem chat_error_after_fragments_marks_batch_witness :
    chat_worker seededTextCtlr ["Hi"] true =
      .done { seededTextCtlr with
        _input_event := { seededTextCtlr._input_event with event_set := false }
        _speech_queue :=
          { seededTextCtlr._speech_queue with
            queue := seededTextCtlr._speech_queue.queue ++ ["Hi"].map some
            batch_complete := true } } ∧
    chat_worker seededTextCtlr [] true =
      .done { seededTextCtlr with
        _input_event := { seededTextCtlr._input_event with event_set := false } } :=
  ⟨(chat_error_after_fragments_marks_batch seededTextCtlr ["Hi"] rfl rfl rfl).1
      (by decide),
   (chat_error_after_fragments_marks_batch seededTextCtlr [] rfl rfl rfl).2⟩

/-- On the empty transcript no character can satisfy any classifier. -/
theorem transcriptValid_empty (isalnum : Char → Bool) :
    transcriptValid isalnum (some "") = false :=
  rfl

/-- C7: for every Unicode isalnum classifier, when the transcriber returns
None or a transcript with no alphanumeric character, the transcribe worker
calls complete() and exits leaving the text mailbox untouched (so the
respond worker's get on it never receives a value for the turn); when the
transcript has an alphanumeric character, the transcript is pushed into
the text mailbox. -/
theorem transcribe_invalid_completes_without_write {A : Type}
    (c : PipelineController A) (isalnum : Char → Bool)
    (transcriber : Option A → Int → Option String) (rate : Int)
    (h1 : c._audio_event.event_set = true)
    (h2 : c._input_event.event_processed = true) :
    (transcriptValid isalnum (transcriber c._audio_event.data rate) = false →
      transcribe_worker c isalnum transcriber rate =
        .done { c with
          _audio_event := { c._audio_event with event_set := false }
          _completed := true }) ∧
    (∀ s, transcriber c._audio_event.data rate = some s →
      transcriptValid isalnum (some s) = true →
      transcribe_worker c isalnum transcriber rate =
        .done { c with
          _audio_event := { c._audio_event with event_set := false }
          _input_event :=
            { data := some s, event_set := true, event_processed := false } }) := by
  have hget : c.get_audio_data =
      .done (c._audio_event.data,
        { c with _audio_event := { c._audio_event with event_set := false } }) := by
    simp [PipelineController.get_audio_data, EventData.get, h1]
  constructor
  · intro hinv
    simp [transcribe_worker, hget, hinv, PipelineController.complete]
  · intro s hs hv
    have hsne : s ≠ "" := fun h0 => by
      subst h0
      rw [transcriptValid_empty] at hv
      exact Bool.noConfusion hv
    simp [transcribe_worker, hget, hs, hv, hsne,
      PipelineController.set_input_text, EventData.set, h2]

/-- Controller built from an audio buffer, after aenter seeded the audio
mailbox. -/
def seededAudioCtlr : PipelineController (List Int) :=
  { freshCtlr (some [1, 2, 3]) none with
    _audio_event :=
      { data := some [1, 2, 3], event_set := true, event_processed := false } }

/-- A concrete instance of the Unicode isalnum classifier for the C7
witness: ASCII alphanumerics together with the hiragana block, which
agrees with Python's str.isalnum on every character of the witness
transcripts below. -/
def isalnumWitness (ch : Char) : Bool :=
  ch.isAlphanum || ('ぁ' ≤ ch && ch ≤ 'ゖ')

/-- Witness for C7 at the seeded audio controller: a transcriber returning
the empty string abandons the turn, one returning a Japanese greeting
forwards it to the text mailbox. -/
theorem transcribe_invalid_completes_without_write_witness :
    transcribe_worker seededAudioCtlr isalnumWitness (fun _ _ => some "")
        16000 =
      .done { seededAudioCtlr with
        _audio_event := { seededAudioCtlr._audio_event with event_set := false }
        _completed := true } ∧
    transcribe_worker seededAudioCtlr isalnumWitness
        (fun _ _ => some "こんにちは") 16000 =
      .done { seededAudioCtlr with
        _audio_event := { seededAudioCtlr._audio_event with event_set := false }
        _input_event :=
          { data := some "こんにちは", event_set := true,
            event_processed := false } } :=
  ⟨(transcribe_invalid_completes_without_write seededAudioCtlr isalnumWitness
      (fun _ _ => some "") 16000 rfl rfl).1 (by decide),
   (transcribe_invalid_completes_without_write seededAudioCtlr isalnumWitness
      (fun _ _ => some "こんにちは") 16000 rfl rfl).2 "こんにちは" rfl
      (by decide)⟩
/-- Shorthand for writing concrete unbounded QueuedEventData states in the
statements below: pending items, closed flag, batch-complete flag. -/
def mkQ {α : Type} (items : List (Option α)) (cl bc : Bool) :
    QueuedEventData α :=
  { queue := items, maxsize := 0, closed := cl, batch_complete := bc }

/-- C8: counterexamples to the unrestricted claim.  On a closed queue the
put after mark_batch_complete is silently discarded and the get after
wait_for_batch_completion returns None, not the item.  On an open queue
that already holds a pending item, the subsequent get returns that older
item, not the one put after the marker. -/
theorem batch_queue_put_after_mark_counterexample :
    (QueuedEventData.init (α := String) 0).close.mark_batch_complete.put
        (some "x") = .done (mkQ [] true true) ∧
    (mkQ ([] : List (Option String)) true true).wait_for_batch_completion =
      .done (mkQ [] true false) ∧
    (mkQ ([] : List (Option String)) true false).get =
      .done (none, mkQ [] true false) ∧
    (mkQ [some "y"] false false).mark_batch_complete.put (some "x") =
      .done (mkQ [some "y", some "x"] false true) ∧
    (mkQ [some "y", some "x"] false true).wait_for_batch_completion =
      .done (mkQ [some "y", some "x"] false false) ∧
    (mkQ [some "y", some "x"] false false).get =
      .done (some "y", mkQ [some "x"] false false) := by
  refine ⟨rfl, rfl, rfl, ?_, rfl, ?_⟩ <;> decide

/-- C8 (amended): for a BatchQueue that is not closed (and unbounded, as
the pipeline constructs it), mark_batch_complete followed by put(x)
followed by wait_for_batch_completion returning leaves x in the queue at
the tail, after any previously pending items; in particular when no items
were pending, the next get returns x. -/
theorem batch_queue_put_after_mark_retrievable (q : QueuedEventData String)
    (x : String) (h1 : q.closed = false) (h2 : q.maxsize = 0) :
    q.mark_batch_complete.put (some x) =
      .done { q with batch_complete := true, queue := q.queue ++ [some x] } ∧
    QueuedEventData.wait_for_batch_completion
      { q with batch_complete := true, queue := q.queue ++ [some x] } =
      .done { q with batch_complete := false, queue := q.queue ++ [some x] } ∧
    some x ∈ q.queue ++ [some x] ∧
    (q.queue = [] →
      QueuedEventData.get
        { q with batch_complete := false, queue := q.queue ++ [some x] } =
        .done (some x, { q with batch_complete := false, queue := [] })) := by
  refine ⟨?_, rfl, ?_, fun he => ?_⟩
  · simp [QueuedEventData.mark_batch_complete, QueuedEventData.put, h1, h2]
  · simp
  · simp [QueuedEventData.get, he]

/-- Witness for the amended C8 theorem at a fresh unbounded queue. -/
theorem batch_queue_put_after_mark_retrievable_witness :
    (QueuedEventData.init (α := String) 0).mark_batch_complete.put (some "x") =
      .done (mkQ [some "x"] false true) ∧
    (mkQ [some "x"] false true).wait_for_batch_completion =
      .done (mkQ [some "x"] false false) ∧
    (mkQ [some "x"] false false).get =
      .done (some "x", mkQ ([] : List (Option String)) false false) :=
  ⟨(batch_queue_put_after_mark_retrievable (QueuedEventData.init 0) "x"
      rfl rfl).1,
   (batch_queue_put_after_mark_retrievable (QueuedEventData.init 0) "x"
      rfl rfl).2.1,
   (batch_queue_put_after_mark_retrievable (QueuedEventData.init 0) "x"
      rfl rfl).2.2.2 rfl⟩

/-- C10: on a closed BatchQueue, put returns without adding the item, get
on an empty queue returns None immediately instead of suspending, and get
on a non-empty queue still returns the pending head item. -/
theorem closed_queue_put_discard_get_none {α : Type}
    (q : QueuedEventData α) (x : α) (h : q.closed = true) :
    q.put (some x) = .done q ∧
    (q.queue = [] → q.get = .done (none, q)) ∧
    (∀ d rest, q.queue = d :: rest →
      q.get = .done (d, { q with queue := rest })) := by
  refine ⟨by simp [QueuedEventData.put, h],
    fun he => by simp [QueuedEventData.get, h, he],
    fun d rest he => by simp [QueuedEventData.get, h, he]⟩

/-- Witness for C10 at concrete closed queues, empty and non-empty. -/
theorem closed_queue_put_discard_get_none_witness :
    (mkQ [some 5] true false).put (some 7) =
      .done (mkQ [some 5] true false) ∧
    (mkQ ([] : List (Option Nat)) true false).get =
      .done (none, mkQ [] true false) ∧
    (mkQ [some 5] true false).get =
      .done (some 5, mkQ ([] : List (Option Nat)) true false) :=
  ⟨(closed_queue_put_discard_get_none _ 7 rfl).1,
   (closed_queue_put_discard_get_none _ 0 rfl).2.1 rfl,
   (closed_queue_put_discard_get_none _ 0 rfl).2.2 (some 5) [] rfl⟩

/-- Witness for C9 at a concrete buffer and text. -/
theorem pipeline_init_input_validation_witness :
    PipelineController.__init__ (A := List Int) none none =
      .error (.valueError "Either audio_data or text_input must be provided") ∧
    PipelineController.__init__ (A := List Int) (some [1]) (some "hi") =
      .error (.valueError "Only one of audio_data or text_input can be provided") ∧
    PipelineController.__init__ (A := List Int) (some [1]) none =
      .ok (freshCtlr (some [1]) none) ∧
    (freshCtlr (A := List Int) (some [1]) none).__aenter__ =
      .done { freshCtlr (A := List Int) (some [1]) none with
              _audio_event :=
                { data := some [1], event_set := true,
                  event_processed := false } } ∧
    PipelineController.__init__ (A := List Int) none (some "hi") =
      .ok (freshCtlr none (some "hi")) ∧
    (freshCtlr (A := List Int) none (some "hi")).__aenter__ =
      .done { freshCtlr (A := List Int) none (some "hi") with
              _input_event :=
                { data := some "hi", event_set := true,
                  event_processed := false } } :=
  pipeline_init_input_validation [1] "hi"

/-- Witness for C3 at a concrete dirty queue. -/
theorem reset_missing_on_mailbox_fresh_on_queue_witness :
    EventData.reset_lookup =
      .error (.attributeError "EventData object has no attribute reset") ∧
    (mkQ [some "a", none] true true).reset = QueuedEventData.init 0 :=
  ⟨reset_missing_on_mailbox_fresh_on_queue.1,
   reset_missing_on_mailbox_fresh_on_queue.2 String (mkQ [some "a", none] true true)⟩
